import Mathlib

/-!
Verification of the contract-resolution engine of the tg_arbitrage repository.

Shallow embedding of the Python source into Lean 4:
* `src/utils/dexscreener.py` — chain normalization, token-bucket rate
  limiter, circuit breaker;
* `src/app/models/contract_address.py` — cache validity;
* `src/models/token_registry.py` — 5-point token verification;
* `src/app/services/contract_resolver.py` — provider fallback chain,
  resolution, failed-lookup logging, pair parsing.

Machine time is modelled with exact rationals, money amounts with exact
rationals (the Python floats never hit rounding in the claims checked
here), and strings with Lean `String` (ASCII lower/upper-casing agrees
with Python's for the inputs involved).
-/

namespace TgArb

/-! ## Python string primitives

Executable models of the Python `str` methods the source relies on.
All strings the resolver handles are ASCII, where these agree exactly
with CPython's `str.lower`, `str.upper` and `str.strip`. -/

/-- Python `str.lower` on one ASCII character. -/
def pyCharLower (c : Char) : Char :=
  if 'A' ≤ c ∧ c ≤ 'Z' then Char.ofNat (c.toNat + 32) else c

/-- Python `str.upper` on one ASCII character. -/
def pyCharUpper (c : Char) : Char :=
  if 'a' ≤ c ∧ c ≤ 'z' then Char.ofNat (c.toNat - 32) else c

/-- Python `str.lower`. -/
def pyLower (s : String) : String := String.mk (s.data.map pyCharLower)

/-- Python `str.upper`. -/
def pyUpper (s : String) : String := String.mk (s.data.map pyCharUpper)

/-- Python `str.strip()`: drop leading and trailing whitespace. -/
def pyStrip (s : String) : String :=
  String.mk
    (((s.data.dropWhile Char.isWhitespace).reverse.dropWhile
        Char.isWhitespace).reverse)

/-! ## Chain normalization (src/utils/dexscreener.py, lines 10-31 and 193-220) -/

/-- The fixed set DEXSCREENER_CHAINS from src/utils/dexscreener.py. -/
def DEXSCREENER_CHAINS : List String :=
  ["ethereum", "bsc", "polygon", "arbitrum", "optimism", "base",
   "avalanche", "fantom", "solana", "sui", "aptos", "zksync",
   "scroll", "linea", "blast", "sonic", "berachain"]

/-- The alias table CHAIN_ALIASES from src/utils/dexscreener.py. -/
def CHAIN_ALIASES : List (String × String) :=
  [("eth", "ethereum"),
   ("ether", "ethereum"),
   ("mainnet", "ethereum"),
   ("bnb", "bsc"),
   ("binance", "bsc"),
   ("matic", "polygon"),
   ("poly", "polygon"),
   ("arb", "arbitrum"),
   ("op", "optimism"),
   ("avax", "avalanche"),
   ("ftm", "fantom"),
   ("sol", "solana")]

/-- Errors raised by the DexScreener client layer. `invalidChain` models
`InvalidChainError` from src/utils/dexscreener.py. -/
inductive DexError where
  | invalidChain (msg : String)
deriving DecidableEq, Repr

/-- Model of `DexScreenerClient.normalize_chain_id` (src/utils/dexscreener.py,
lines 193-220): reject the empty string, lowercase and strip the input,
map it through the alias table, and validate membership in
`DEXSCREENER_CHAINS`. -/
def normalize_chain_id (chain_input : String) : Except DexError String :=
  if chain_input = "" then
    .error (.invalidChain "Chain identifier cannot be empty")
  else
    let normalized := pyStrip (pyLower chain_input)
    let normalized :=
      match CHAIN_ALIASES.lookup normalized with
      | some v => v
      | none => normalized
    if normalized ∈ DEXSCREENER_CHAINS then
      .ok normalized
    else
      .error (.invalidChain ("Invalid chain: " ++ chain_input))

/-! ## Cache validity (src/app/models/contract_address.py, lines 54-68) -/

/-- Model of `ContractAddress.is_cache_valid` (src/app/models/contract_address.py,
lines 54-68). `last_verified_at` is a nullable timestamp; `now` is the
observation time (`datetime.utcnow()`), both in seconds. A row with no
`last_verified_at` is never valid; otherwise the row is valid exactly when
its age is strictly below the TTL. -/
def is_cache_valid (last_verified_at : Option ℚ) (now : ℚ)
    (cache_ttl_seconds : ℚ) : Bool :=
  match last_verified_at with
  | none => false
  | some t => decide (now - t < cache_ttl_seconds)

/-! ## Token verification (src/models/token_registry.py, lines 160-223) -/

/-- The fields of a `TokenPrice` snapshot (src/utils/dexscreener.py,
lines 54-79) that `_verify_token` reads. Python floats are modelled as
exact rationals. -/
structure TokenPriceData where
  liquidity_usd : ℚ
  volume_24h : ℚ
  price_usd : ℚ
  dex_id : String
deriving DecidableEq, Repr

/-- The result dictionary of `TokenRegistry._verify_token`
(src/models/token_registry.py, lines 160-223). -/
structure VerificationResult where
  is_verified : Bool
  is_scam : Bool
  scam_indicators : List String
  checks_passed : ℕ
deriving DecidableEq, Repr

/-- Model of `TokenRegistry._verify_token` (src/models/token_registry.py,
lines 160-223): five checks; check 3 is guarded by `volume_24h > 0` and
is skipped entirely (no pass, no scam indicator) at zero volume.
The Python literal `0.000001` is the float closest to 1/1000000; the
claims checked here evaluate it only away from that rounding error, so it
is modelled as the exact rational. -/
def verify_token (token_data : TokenPriceData) : VerificationResult :=
  let checks_passed : ℕ := 0
  let scam_indicators : List String := []
  -- Check 1: Minimum liquidity
  let checks_passed :=
    if token_data.liquidity_usd ≥ 100000 then checks_passed + 1
    else checks_passed
  let scam_indicators :=
    if token_data.liquidity_usd ≥ 100000 then scam_indicators
    else scam_indicators ++ ["Low liquidity"]
  -- Check 2: Trading volume
  let checks_passed :=
    if token_data.volume_24h ≥ 10000 then checks_passed + 1
    else checks_passed
  let scam_indicators :=
    if token_data.volume_24h ≥ 10000 then scam_indicators
    else scam_indicators ++ ["Low volume"]
  -- Check 3: Not a honeypot pattern, only evaluated when volume_24h > 0
  let checks_passed :=
    if token_data.volume_24h > 0 then
      if 0.1 < token_data.liquidity_usd / token_data.volume_24h ∧
          token_data.liquidity_usd / token_data.volume_24h < 100 then
        checks_passed + 1
      else checks_passed
    else checks_passed
  let scam_indicators :=
    if token_data.volume_24h > 0 then
      if 0.1 < token_data.liquidity_usd / token_data.volume_24h ∧
          token_data.liquidity_usd / token_data.volume_24h < 100 then
        scam_indicators
      else scam_indicators ++ ["Abnormal liquidity/volume ratio"]
    else scam_indicators
  -- Check 4: Price not suspiciously high or low
  let checks_passed :=
    if 1 / 1000000 < token_data.price_usd ∧ token_data.price_usd < 1000000 then
      checks_passed + 1
    else checks_passed
  let scam_indicators :=
    if 1 / 1000000 < token_data.price_usd ∧ token_data.price_usd < 1000000 then
      scam_indicators
    else scam_indicators ++ ["Suspicious price"]
  -- Check 5: Has been trading for some time (pairs exist)
  let checks_passed :=
    if token_data.dex_id ≠ "unknown" then checks_passed + 1
    else checks_passed
  let scam_indicators :=
    if token_data.dex_id ≠ "unknown" then scam_indicators
    else scam_indicators ++ ["No DEX pairs found"]
  { is_verified := checks_passed ≥ 4
    is_scam := checks_passed ≤ 2
    scam_indicators := scam_indicators
    checks_passed := checks_passed }

/-! ## Circuit breaker (src/utils/dexscreener.py, lines 114-148) -/

/-- The three states of `CircuitBreaker.state` (the Python strings
'closed', 'open', 'half-open'). -/
inductive CBState where
  | closed
  | opened
  | halfOpen
deriving DecidableEq, Repr

/-- State of `CircuitBreaker` (src/utils/dexscreener.py, lines 114-148).
`last_failure_time` starts as `None` and is stamped by `record_failure`. -/
structure CircuitBreaker where
  failure_threshold : ℕ
  timeout_seconds : ℚ
  failures : ℕ
  last_failure_time : Option ℚ
  state : CBState
deriving DecidableEq, Repr

/-- Model of `CircuitBreaker.__init__` with its defaults
(failure_threshold=5, timeout_seconds=60). -/
def CircuitBreaker.init (failure_threshold : ℕ := 5)
    (timeout_seconds : ℚ := 60) : CircuitBreaker :=
  { failure_threshold := failure_threshold
    timeout_seconds := timeout_seconds
    failures := 0
    last_failure_time := none
    state := .closed }

/-- The `is_open` property (src/utils/dexscreener.py, lines 123-135).
It both reports and — in the `open` state with the cooldown strictly
elapsed — mutates `state` to half-open, so it returns the report together
with the updated breaker. The `opened`/`none` branch is unreachable
through the class API (`record_failure` always stamps the time before
opening; Python would raise a TypeError there). -/
def CircuitBreaker.is_open (cb : CircuitBreaker) (now : ℚ) :
    Bool × CircuitBreaker :=
  match cb.state with
  | .closed => (false, cb)
  | .opened =>
    match cb.last_failure_time with
    | some t =>
      if now - t > cb.timeout_seconds then
        (false, { cb with state := .halfOpen })
      else
        (true, cb)
    | none => (true, cb)
  | .halfOpen => (false, cb)

/-- Model of `CircuitBreaker.record_success` (src/utils/dexscreener.py,
lines 137-140). -/
def CircuitBreaker.record_success (cb : CircuitBreaker) : CircuitBreaker :=
  { cb with failures := 0, state := .closed }

/-- Model of `CircuitBreaker.record_failure` (src/utils/dexscreener.py,
lines 142-148), called at time `now` (`time.time()`). -/
def CircuitBreaker.record_failure (cb : CircuitBreaker) (now : ℚ) :
    CircuitBreaker :=
  let cb := { cb with failures := cb.failures + 1, last_failure_time := some now }
  if cb.failures ≥ cb.failure_threshold then
    { cb with state := .opened }
  else
    cb

/-! ## Token-bucket rate limiter (src/app/utils/rate_limiter.py, lines
10-37; src/utils/dexscreener.py, lines 82-111 — the two classes are
textually identical) -/

/-- The mutable state of `TokenBucketRateLimiter`. -/
structure BucketState where
  capacity : ℚ
  tokens : ℚ
  last_update : ℚ
deriving DecidableEq, Repr

/-- Model of `TokenBucketRateLimiter.__init__(requests_per_minute)` at creation
time `now`. -/
def BucketState.init (requests_per_minute : ℚ) (now : ℚ) : BucketState :=
  { capacity := requests_per_minute
    tokens := requests_per_minute
    last_update := now }

/-- Model of `TokenBucketRateLimiter.acquire` (src/app/utils/rate_limiter.py,
lines 20-37), entered at time `now` (the caller holds the per-bucket lock
for the whole body, including the sleep). Returns the time at which the
call completes together with the new bucket state. In the waiting branch
the code sleeps `(1 - tokens) * 60 / capacity` seconds and sets
`tokens = 0`; note that `last_update` was already set to `now` before the
sleep and is not advanced past it. -/
def BucketState.acquire (s : BucketState) (now : ℚ) : ℚ × BucketState :=
  let elapsed := now - s.last_update
  let refill := elapsed * (s.capacity / 60)
  let tokens := min s.capacity (s.tokens + refill)
  if tokens < 1 then
    let wait_time := (1 - tokens) * 60 / s.capacity
    (now + wait_time, { s with tokens := 0, last_update := now })
  else
    (now, { s with tokens := tokens - 1, last_update := now })

/-- Runs a sequence of serialized `acquire` calls, each entered at the
given clock time, and collects the completion times. The per-bucket
asyncio lock serializes callers, so a schedule is admissible when each
entry time is at least the previous call's completion time (checked by
`admissibleSchedule` below). -/
def runAcquires (s : BucketState) : List ℚ → List ℚ
  | [] => []
  | t :: ts =>
    let r := s.acquire t
    r.1 :: runAcquires r.2 ts

/-- An entry-time schedule is admissible for a start state when it is
the real-time order of a serialized caller sequence: each call enters no
earlier than the previous call completed. -/
def admissibleSchedule (s : BucketState) : List ℚ → Bool
  | [] => true
  | t :: ts =>
    let r := s.acquire t
    decide (s.last_update ≤ t) && admissibleScheduleFrom r.1 r.2 ts
where
  admissibleScheduleFrom (prevDone : ℚ) (s : BucketState) : List ℚ → Bool
    | [] => true
    | t :: ts =>
      let r := s.acquire t
      decide (prevDone ≤ t) && admissibleScheduleFrom r.1 r.2 ts

/-! ## Pair parsing (src/app/services/contract_resolver.py,
lines 149-186) -/

/-- Python's `str.split(sep)` for a one-character separator, on the
character list of the string: always returns `count sep + 1` pieces,
empty pieces included (`"USDT/".split('/') == ["USDT", ""]`). -/
def pySplit (sep : Char) : List Char → List (List Char)
  | [] => [[]]
  | c :: cs =>
    if c = sep then
      [] :: pySplit sep cs
    else
      match pySplit sep cs with
      | p :: ps => (c :: p) :: ps
      | [] => [[c]]

/-! ## Contract resolver (src/app/services/contract_resolver.py) -/

/-- The normalized contract dictionary flowing through the resolver
(§4.4 of the code's docstrings): `{symbol, contract, blockchain,
decimals, name, verified, source}`. The CoinGecko client's dictionary
uses the key `contract_address` instead of `contract`; the embedding
uses one record shape and notes the key mapping at the construction
site. -/
structure ContractRecord where
  symbol : String
  contract : Option String
  blockchain : String
  decimals : ℕ
  name : String
  verified : Bool
  source : String
deriving DecidableEq, Repr

/-- The data of a successful 200 response in
`CoinGeckoClient.get_contract_address`
(src/app/services/api_clients/coingecko_client.py, lines 91-101). -/
structure CoinGeckoData where
  contract_address : String
  platform : String
  name : String
  symbol : String
  decimals : ℕ
deriving DecidableEq, Repr

/-- The dictionary built by `CoinGeckoClient.get_contract_address` on a
200 response: the `source` field is the literal 'coingecko'
(src/app/services/api_clients/coingecko_client.py, line 100). The
Python dict carries the address under the key `contract_address` and the
chain under `platform`; the embedding maps them onto the uniform record's
`contract` and `blockchain` fields. -/
def coingeckoRecord (d : CoinGeckoData) : ContractRecord :=
  { symbol := d.symbol
    contract := some d.contract_address
    blockchain := d.platform
    decimals := d.decimals
    name := d.name
    verified := false
    source := "coingecko" }

/-- Outcome of the CoinGecko branch of `_fetch_from_apis`
(src/app/services/contract_resolver.py, lines 204-232): an exception
anywhere in the `try` block, a `None` from `search_coin`, a `None`
contract lookup for a found coin id, or a successful lookup. -/
inductive CoinGeckoOutcome where
  | err (msg : String)
  | noCoin
  | noContract (coin_id : String)
  | found (coin_id : String) (d : CoinGeckoData)
deriving DecidableEq, Repr

/-- A token dictionary returned by `OneInchClient.search_tokens`, as read
by the resolver (src/app/services/contract_resolver.py, lines 249-257). -/
structure OneInchToken where
  symbol : String
  contract_address : String
  decimals : ℕ
  name : String
deriving DecidableEq, Repr

/-- Outcome of the 1inch branch of `_fetch_from_apis` (lines 234-268):
exception, empty result list, or a first match. -/
inductive OneInchOutcome where
  | err (msg : String)
  | empty
  | found (t : OneInchToken)
deriving DecidableEq, Repr

/-- A token dictionary returned by `DexScreenerClient.search_tokens`, as
read by the resolver (src/app/services/contract_resolver.py,
lines 276-296). -/
structure DexToken where
  chain_id : String
  address : String
  symbol : String
  name : String
deriving DecidableEq, Repr

/-- Outcome of the DexScreener branch of `_fetch_from_apis`
(lines 270-307): exception, or the full (unfiltered, all-chains) token
list from `search_tokens`. -/
inductive DexOutcome where
  | err (msg : String)
  | found (tokens : List DexToken)
deriving DecidableEq, Repr

/-- The per-call environment of `_fetch_from_apis`: what each provider's
network interaction would yield, plus the module-level
`DEXSCREENER_AVAILABLE` flag (src/app/services/contract_resolver.py,
lines 22-27). -/
structure FetchEnv where
  coingecko : CoinGeckoOutcome
  oneinch : OneInchOutcome
  dexscreener : DexOutcome
  dexscreener_available : Bool
deriving DecidableEq, Repr

/-- A row appended by `ContractCache.log_api_call`
(src/app/utils/contract_cache.py, lines 97-131). Latency is not
modelled (wall-clock only feeds that column). -/
structure ApiCallLogEntry where
  api_name : String
  endpoint : String
  success : Bool
  status_code : Option ℕ
  error_message : Option String
deriving DecidableEq, Repr

/-- Result of `_fetch_from_apis`: the returned record (or `None`), the
call-log rows appended, in order, and — as ghost instrumentation for the
proofs — the names of the providers whose `try` blocks were entered, in
order. -/
structure FetchResult where
  result : Option ContractRecord
  log : List ApiCallLogEntry
  attempted : List String
deriving DecidableEq, Repr

/-- Model of `ContractResolver._fetch_from_apis`
(src/app/services/contract_resolver.py, lines 188-309): try CoinGecko,
then 1inch, then (when available) DexScreener; log a success row and
return immediately on the first success; log a failure row when a
provider raises; a not-found miss falls through to the next provider
without logging anything. -/
def fetch_from_apis (env : FetchEnv) (token_symbol blockchain : String) :
    FetchResult :=
  -- Try CoinGecko first
  match env.coingecko with
  | .found coin_id d =>
    { result := some (coingeckoRecord d)
      log := [{ api_name := "coingecko"
                endpoint := "/coins/" ++ coin_id ++ "/contract/" ++ blockchain
                success := true
                status_code := some 200
                error_message := none }]
      attempted := ["coingecko"] }
  | .noCoin => fetchOneInch env token_symbol blockchain []
  | .noContract _ => fetchOneInch env token_symbol blockchain []
  | .err e =>
    fetchOneInch env token_symbol blockchain
      [{ api_name := "coingecko"
         endpoint := "search/" ++ token_symbol
         success := false
         status_code := none
         error_message := some e }]
where
  /-- The 1inch branch (lines 234-268) followed by the DexScreener
  branch. `logSoFar` carries the rows already appended. -/
  fetchOneInch (env : FetchEnv) (token_symbol blockchain : String)
      (logSoFar : List ApiCallLogEntry) : FetchResult :=
    match env.oneinch with
    | .found t =>
      { result := some
          { symbol := t.symbol
            contract := some t.contract_address
            blockchain := blockchain
            decimals := t.decimals
            name := t.name
            verified := false
            source := "1inch" }
        log := logSoFar ++
          [{ api_name := "1inch"
             endpoint := "/token/v1.2/" ++ blockchain ++ "/search"
             success := true
             status_code := some 200
             error_message := none }]
        attempted := ["coingecko", "1inch"] }
    | .empty => fetchDex env token_symbol blockchain logSoFar
    | .err e =>
      fetchDex env token_symbol blockchain
        (logSoFar ++
          [{ api_name := "1inch"
             endpoint := "/token/v1.2/" ++ blockchain ++ "/search"
             success := false
             status_code := none
             error_message := some e }])
  /-- The DexScreener branch (lines 270-307): guarded by
  `DEXSCREENER_AVAILABLE`; the results are filtered for the first token
  whose `chain_id` matches the requested blockchain (both lowercased);
  no match falls through silently. -/
  fetchDex (env : FetchEnv) (token_symbol blockchain : String)
      (logSoFar : List ApiCallLogEntry) : FetchResult :=
    if env.dexscreener_available then
      match env.dexscreener with
      | .found tokens =>
        match tokens.find? (fun t => pyLower t.chain_id == pyLower blockchain) with
        | some t =>
          { result := some
              { symbol := t.symbol
                contract := some t.address
                blockchain := blockchain
                decimals := 18
                name := t.name
                verified := false
                source := "dexscreener" }
            log := logSoFar ++
              [{ api_name := "dexscreener"
                 endpoint := "/search?q=" ++ token_symbol
                 success := true
                 status_code := some 200
                 error_message := none }]
            attempted := ["coingecko", "1inch", "dexscreener"] }
        | none =>
          { result := none
            log := logSoFar
            attempted := ["coingecko", "1inch", "dexscreener"] }
      | .err e =>
        { result := none
          log := logSoFar ++
            [{ api_name := "dexscreener"
               endpoint := "/search?q=" ++ token_symbol
               success := false
               status_code := none
               error_message := some e }]
          attempted := ["coingecko", "1inch", "dexscreener"] }
    else
      { result := none
        log := logSoFar
        attempted := ["coingecko", "1inch"] }

/-- Table `ContractResolver.NATIVE_TOKENS`
(src/app/services/contract_resolver.py, lines 39-48). -/
def NATIVE_TOKENS : List (String × String) :=
  [("ethereum", "ETH"),
   ("bsc", "BNB"),
   ("polygon", "MATIC"),
   ("avalanche", "AVAX"),
   ("fantom", "FTM"),
   ("arbitrum", "ETH"),
   ("optimism", "ETH"),
   ("base", "ETH")]

/-- A row of the `contract_addresses` table as returned by
`ContractCache.get_cached_contract` (validity already checked there), as
read on the cache-hit path of `get_contract_address`
(src/app/services/contract_resolver.py, lines 110-121). -/
structure CachedContract where
  token_symbol : String
  token_name : Option String
  contract_address : String
  blockchain : String
  decimals : Option ℕ
  verified : Bool
deriving DecidableEq, Repr

/-- A row of the `failed_contract_lookups` table
(src/app/models/failed_lookup.py), restricted to the fields
`_log_failed_lookup` writes. -/
structure FailedRecord where
  error_message : String
  retry_count : ℕ
deriving DecidableEq, Repr

/-- The failed-lookup store, keyed by (token_symbol, blockchain). -/
def FailedStore : Type := String × String → Option FailedRecord

/-- Model of `ContractResolver._log_failed_lookup`
(src/app/services/contract_resolver.py, lines 311-340): upsert keyed by
the uppercased symbol and lowercased blockchain — increment
`retry_count` and replace the message when a row exists, else insert
with `retry_count = 1`. -/
def log_failed_lookup (store : FailedStore)
    (token_symbol blockchain error_message : String) : FailedStore :=
  let key := (pyUpper token_symbol, pyLower blockchain)
  fun k =>
    if k = key then
      match store key with
      | some r => some { error_message := error_message
                         retry_count := r.retry_count + 1 }
      | none => some { error_message := error_message, retry_count := 1 }
    else
      store k

/-- Errors crossing the resolver's public boundary. `resolutionFailed`
models the `ValueError` raised at src/app/services/contract_resolver.py,
line 147 (the spec's `ResolutionFailed`); `invalidPairFormat` the
`ValueError` at line 173 (the spec's `InvalidPairFormat`);
`providerError` stands for a provider-level exception escaping raw — the
resolver never constructs it, which is exactly the propagation policy
under verification. -/
inductive ResolverError where
  | resolutionFailed (symbol blockchain : String)
  | invalidPairFormat (pair : String)
  | providerError (msg : String)
deriving DecidableEq, Repr

/-- The per-call environment of `get_contract_address`: the provider
environment, the (validity-filtered) result of
`ContractCache.get_cached_contract`, and whether
`ContractCache.save_contract` would succeed. -/
structure ResolveEnv where
  fetch : FetchEnv
  cached : Option CachedContract
  save_ok : Bool
deriving DecidableEq, Repr

/-- Model of `ContractResolver.get_contract_address`
(src/app/services/contract_resolver.py, lines 68-147): uppercase the
symbol, lowercase the blockchain; native tokens short-circuit with
`source = 'native'`; a valid cache row returns with `source = 'cache'`
(skipped under `force_refresh`); otherwise `_fetch_from_apis` runs, a
success is stamped `source = 'api'` whether or not the cache write
succeeds, and exhaustion upserts a failed lookup and raises. Returns the
outcome together with the updated failed-lookup store. -/
def get_contract_address (env : ResolveEnv) (store : FailedStore)
    (token_symbol : String) (blockchain : String := "ethereum")
    (force_refresh : Bool := false) :
    Except ResolverError ContractRecord × FailedStore :=
  let token_symbol := pyUpper token_symbol
  let blockchain := pyLower blockchain
  -- Check if native token
  if NATIVE_TOKENS.lookup blockchain = some token_symbol then
    (.ok { symbol := token_symbol
           contract := none
           blockchain := blockchain
           decimals := 18
           name := token_symbol
           verified := false
           source := "native" }, store)
  else
    -- Check cache first (unless force refresh)
    match (if force_refresh then none else env.cached) with
    | some cached =>
      (.ok { symbol := cached.token_symbol
             contract := some cached.contract_address
             blockchain := cached.blockchain
             decimals := cached.decimals.getD 18
             name := cached.token_name.getD token_symbol
             verified := cached.verified
             source := "cache" }, store)
    | none =>
      -- Cache miss - fetch from APIs
      match (fetch_from_apis env.fetch token_symbol blockchain).result with
      | some contract_data =>
        -- the cache write may fail; either way the data is returned
        -- with source = 'api' (lines 127-143)
        (.ok { contract_data with source := "api" }, store)
      | none =>
        -- All APIs failed - log failure, then raise ValueError
        (.error (.resolutionFailed token_symbol blockchain),
         log_failed_lookup store token_symbol blockchain "All APIs failed")

/-- The dictionary returned by `ContractResolver.get_pair_contracts`
(src/app/services/contract_resolver.py, lines 181-186). -/
structure PairResult where
  pair : String
  base_token : ContractRecord
  quote_token : ContractRecord
  blockchain : String
deriving DecidableEq, Repr

/-- Model of `ContractResolver.get_pair_contracts`
(src/app/services/contract_resolver.py, lines 149-186): split the pair
string on '/'; raise `InvalidPairFormat` unless the split yields exactly
two parts (the parts themselves are not inspected); otherwise resolve
both uppercased parts through `get_contract_address`, threading the
failed-lookup store. -/
def get_pair_contracts (env : ResolveEnv) (store : FailedStore)
    (pair : String) (blockchain : String := "ethereum") :
    Except ResolverError PairResult × FailedStore :=
  let parts := pySplit '/' pair.toList
  match parts with
  | [p0, p1] =>
    let base_symbol := pyUpper (String.mk p0)
    let quote_symbol := pyUpper (String.mk p1)
    match get_contract_address env store base_symbol blockchain with
    | (.ok base_token, store1) =>
      match get_contract_address env store1 quote_symbol blockchain with
      | (.ok quote_token, store2) =>
        (.ok { pair := pair
               base_token := base_token
               quote_token := quote_token
               blockchain := blockchain }, store2)
      | (.error e, store2) => (.error e, store2)
    | (.error e, store1) => (.error e, store1)
  | _ => (.error (.invalidPairFormat pair), store)

/-- A sequence of consecutive `record_failure` calls at the given times,
starting from a freshly constructed breaker (threshold 5, cooldown 60 s). -/
def cbAfterFailures (ts : List ℚ) : CircuitBreaker :=
  ts.foldl (fun cb t => cb.record_failure t) CircuitBreaker.init

/-- The empty failed-lookup store (no rows in the table). -/
def emptyFailedStore : FailedStore := fun _ => none

/-- A resolution environment in which CoinGecko finds no coin, 1inch
finds a USDT token, DexScreener returns an empty search result, and the
cache is empty. -/
def c8_env : ResolveEnv :=
  { fetch :=
      { coingecko := .noCoin
        oneinch := .found
          { symbol := "USDT"
            contract_address := "0xdac17f958d2ee523a2206206994597c13d831ec7"
            decimals := 6
            name := "Tether USD" }
        dexscreener := .found []
        dexscreener_available := true }
    cached := none
    save_ok := true }

/-- The CoinGecko branch fails — by exception or by not-found — exactly
when it does not produce a contract record. -/
def CoinGeckoOutcome.isFailure : CoinGeckoOutcome → Bool
  | .found _ _ => false
  | _ => true

/-- The 1inch branch fails — by exception or by an empty result list —
exactly when it does not produce a token. -/
def OneInchOutcome.isFailure : OneInchOutcome → Bool
  | .found _ => false
  | _ => true

/-- The DexScreener branch fails for the requested blockchain when the
call raises or when no returned token matches that chain. -/
def DexOutcome.isFailureFor (o : DexOutcome) (blockchain : String) : Bool :=
  match o with
  | .err _ => true
  | .found tokens =>
    (tokens.find? (fun t => pyLower t.chain_id == pyLower blockchain)).isNone

/-- An environment where CoinGecko misses by not-found and 1inch
succeeds. -/
def c1_env : FetchEnv :=
  { coingecko := .noCoin
    oneinch := .found
      { symbol := "USDT"
        contract_address := "0xdac17f958d2ee523a2206206994597c13d831ec7"
        decimals := 6
        name := "Tether USD" }
    dexscreener := .found []
    dexscreener_available := true }

/-- An environment where CoinGecko raises, 1inch returns no tokens, and
DexScreener raises: full provider exhaustion. -/
def c2_env : ResolveEnv :=
  { fetch :=
      { coingecko := .err "rate limited"
        oneinch := .empty
        dexscreener := .err "timeout"
        dexscreener_available := true }
    cached := none
    save_ok := true }

/-! ## Claim theorems -/

/-- Claim C5: `normalize_chain_id` lowercases and strips its input, maps
it through the alias table, and either returns a member of the canonical
chain set or fails with `InvalidChainError`; "eth", "Ethereum" and
"mainnet" all normalize to "ethereum", and empty or unknown input fails
with `InvalidChainError`. -/
theorem c5_normalize_chain_id :
    (∀ s : String,
      (∃ c, normalize_chain_id s = .ok c ∧ c ∈ DEXSCREENER_CHAINS) ∨
      (∃ m, normalize_chain_id s = .error (.invalidChain m))) ∧
    normalize_chain_id "eth" = .ok "ethereum" ∧
    normalize_chain_id "Ethereum" = .ok "ethereum" ∧
    normalize_chain_id "mainnet" = .ok "ethereum" ∧
    (∃ m, normalize_chain_id "" = .error (.invalidChain m)) ∧
    (∃ m, normalize_chain_id "dogecoin" = .error (.invalidChain m)) := by
  refine ⟨fun s => ?_, rfl, rfl, rfl, ⟨_, rfl⟩, ⟨_, rfl⟩⟩
  unfold normalize_chain_id
  split
  · exact .inr ⟨_, rfl⟩
  · dsimp only
    split
    · next h => exact .inl ⟨_, rfl, h⟩
    · exact .inr ⟨_, rfl⟩

/-- Claim C6: for a row whose `last_verified_at` is set, `is_cache_valid`
holds at observation time `now` exactly when `now - last_verified_at`
is below the TTL, and once it has flipped to false it stays false at
every later observation time (absent a new write to
`last_verified_at`). -/
theorem c6_cache_validity (t now now' ttl : ℚ) (h : now ≤ now') :
    (is_cache_valid (some t) now ttl = true ↔ now - t < ttl) ∧
    (is_cache_valid (some t) now ttl = false →
      is_cache_valid (some t) now' ttl = false) := by
  constructor
  · simp [is_cache_valid]
  · simp only [is_cache_valid, decide_eq_false_iff_not, not_lt]
    intro hnot
    linarith

/-- Witness for C6 at concrete times: a row verified at time 0 with the
default TTL of 86400 s is stale at 90000 s and still stale at 100000 s. -/
theorem c6_cache_validity_witness :
    is_cache_valid (some 0) 100000 86400 = false :=
  (c6_cache_validity 0 90000 100000 86400 (by norm_num)).2
    (by simp [is_cache_valid]; norm_num)

/-- Claim C9: a stored row whose `last_verified_at` is unset (`None`) is
reported invalid by `is_cache_valid` for every observation time and every
TTL, so it is always a cache miss, never an error. -/
theorem c9_unset_timestamp_invalid (now ttl : ℚ) :
    is_cache_valid none now ttl = false := rfl

/-- Claim C7: `_verify_token` declares `is_verified` exactly when at
least 4 of the 5 checks pass and `is_scam` exactly when at most 2 pass;
liquidity $50k with 24h volume $500 passes at most 2 checks (whatever the
price and dex id) and is declared a scam, while liquidity $1M, volume
$50k (ratio 20), price $1 and a dex id set passes 5/5 and is declared
verified. -/
theorem c7_verification_scoring :
    (∀ d : TokenPriceData,
      ((verify_token d).is_verified = true ↔ 4 ≤ (verify_token d).checks_passed) ∧
      ((verify_token d).is_scam = true ↔ (verify_token d).checks_passed ≤ 2)) ∧
    (∀ (price : ℚ) (dex_id : String),
      (verify_token ⟨50000, 500, price, dex_id⟩).checks_passed ≤ 2 ∧
      (verify_token ⟨50000, 500, price, dex_id⟩).is_scam = true) ∧
    (verify_token ⟨1000000, 50000, 1, "uniswap"⟩).checks_passed = 5 ∧
    (verify_token ⟨1000000, 50000, 1, "uniswap"⟩).is_verified = true := by
  have hdex : ("uniswap" : String) ≠ "unknown" := by decide
  refine ⟨fun d => ?_, fun price dex_id => ?_, ?_, ?_⟩
  · unfold verify_token
    split_ifs <;> simp
  · unfold verify_token
    norm_num
    split_ifs <;> simp
  · unfold verify_token
    norm_num [hdex]
  · unfold verify_token
    norm_num [hdex]

/-- Claim C10: at zero 24h volume the liquidity/volume check is skipped
entirely — it neither passes nor records its scam indicator — so a
zero-volume token passes at most 3 of the 5 checks and the scoring pass
never declares it verified, whatever its liquidity, price and dex id. -/
theorem c10_zero_volume_never_verified (liq price : ℚ) (dex_id : String) :
    (verify_token ⟨liq, 0, price, dex_id⟩).checks_passed ≤ 3 ∧
    (verify_token ⟨liq, 0, price, dex_id⟩).is_verified = false ∧
    "Abnormal liquidity/volume ratio" ∉
      (verify_token ⟨liq, 0, price, dex_id⟩).scam_indicators := by
  unfold verify_token
  norm_num
  split_ifs <;> simp

/-- Counterexample to claim C3 as stated. After 5 failures at time 0 the
breaker is open; at time 61 the cooldown (60 s) has elapsed. The claim
says the next `is_open` check reports not-open exactly once before the
breaker is re-evaluated by a `record_success`/`record_failure`; but a
second `is_open` check at time 61, with no record call in between, again
reports not-open: the half-open state keeps permitting trial calls, it
does not limit them to exactly one. -/
theorem c3_counterexample :
    ((((((CircuitBreaker.init.record_failure 0).record_failure
        0).record_failure 0).record_failure 0).record_failure 0).is_open
        61).1 = false ∧
    (((((((CircuitBreaker.init.record_failure 0).record_failure
        0).record_failure 0).record_failure 0).record_failure 0).is_open
        61).2.is_open 61).1 = false ∧
    ((((((CircuitBreaker.init.record_failure 0).record_failure
        0).record_failure 0).record_failure 0).record_failure 0).is_open
        61).2.state = CBState.halfOpen := by
  norm_num [CircuitBreaker.init, CircuitBreaker.record_failure,
    CircuitBreaker.is_open]

/-- Claim C3 (amended): from the initial closed state, after exactly 5
consecutive `record_failure()` calls `is_open` reports open (after only
4 it still reports not-open); once the 60-second cooldown has strictly
elapsed since the last failure, the next `is_open` check reports
not-open and transitions the breaker to half-open; in half-open every
further `is_open` check also reports not-open and leaves the breaker
unchanged — the code does not limit the trial to exactly one call —
until the next `record_success` (back to closed) or `record_failure`
(back to open). -/
theorem c3_circuit_breaker_amended (t1 t2 t3 t4 t5 now now' : ℚ) :
    ((cbAfterFailures [t1, t2, t3, t4]).is_open now).1 = false ∧
    (cbAfterFailures [t1, t2, t3, t4, t5]).state = CBState.opened ∧
    (now - t5 ≤ 60 →
      ((cbAfterFailures [t1, t2, t3, t4, t5]).is_open now).1 = true) ∧
    (now - t5 > 60 →
      ((cbAfterFailures [t1, t2, t3, t4, t5]).is_open now).1 = false ∧
      ((cbAfterFailures [t1, t2, t3, t4, t5]).is_open now).2.state =
        CBState.halfOpen) ∧
    (∀ cb : CircuitBreaker, cb.state = CBState.halfOpen →
      (cb.is_open now').1 = false ∧
      (cb.is_open now').2 = cb ∧
      cb.record_success.state = CBState.closed) ∧
    (now - t5 > 60 →
      (((cbAfterFailures [t1, t2, t3, t4, t5]).is_open
          now).2.record_failure now').state = CBState.opened) := by
  have h4 : cbAfterFailures [t1, t2, t3, t4] =
      { failure_threshold := 5, timeout_seconds := 60, failures := 4,
        last_failure_time := some t4, state := .closed } := by
    norm_num [cbAfterFailures, CircuitBreaker.init,
      CircuitBreaker.record_failure]
  have h5 : cbAfterFailures [t1, t2, t3, t4, t5] =
      { failure_threshold := 5, timeout_seconds := 60, failures := 5,
        last_failure_time := some t5, state := .opened } := by
    norm_num [cbAfterFailures, CircuitBreaker.init,
      CircuitBreaker.record_failure]
  refine ⟨?_, ?_, ?_, ?_, ?_, ?_⟩
  · rw [h4]
    simp [CircuitBreaker.is_open]
  · rw [h5]
  · intro h
    rw [h5]
    simp only [CircuitBreaker.is_open]
    rw [if_neg (by linarith : ¬ (now - t5 > 60))]
  · intro h
    rw [h5]
    simp only [CircuitBreaker.is_open]
    rw [if_pos h]
    exact ⟨rfl, rfl⟩
  · intro cb hcb
    simp [CircuitBreaker.is_open, CircuitBreaker.record_success, hcb]
  · intro h
    rw [h5]
    simp only [CircuitBreaker.is_open]
    rw [if_pos h]
    norm_num [CircuitBreaker.record_failure]

/-- Witness for the amended C3 theorem: 5 failures at time 0, first
check at time 61 (cooldown of 60 s strictly elapsed), second activity at
time 62. -/
theorem c3_circuit_breaker_amended_witness :
    ((cbAfterFailures [0, 0, 0, 0, 0]).is_open 61).1 = false ∧
    ((cbAfterFailures [0, 0, 0, 0, 0]).is_open 61).2.state =
      CBState.halfOpen :=
  (c3_circuit_breaker_amended 0 0 0 0 0 61 62).2.2.2.1 (by norm_num)

/-- Counterexample to claim C4 as stated. Capacity C = 1, bucket created
full at time 0. Three serialized `acquire()` calls: the first enters at
time 0 and completes at once (consuming the token); the second enters at
time 0, finds the bucket empty, sleeps 60 s, and completes at time 60
with `tokens = 0` — but `last_update` stays 0, set before the sleep; the
third enters at time 60, is credited the sleep interval again
(`elapsed = 60`, a full token), and also completes at time 60. Two
acquisitions complete at the same instant 60, so the window [30, 90] —
indeed any 60-second window containing t = 60 — holds 2 > C = 1
completions. -/
theorem c4_counterexample :
    admissibleSchedule (BucketState.init 1 0) [0, 0, 60] = true ∧
    runAcquires (BucketState.init 1 0) [0, 0, 60] = [0, 60, 60] ∧
    ((runAcquires (BucketState.init 1 0) [0, 0, 60]).filter
        (fun c => decide (30 ≤ c ∧ c ≤ 90))).length = 2 ∧
    (BucketState.init 1 0).capacity = 1 := by
  refine ⟨?_, ?_, ?_, rfl⟩
  · norm_num [admissibleSchedule, admissibleSchedule.admissibleScheduleFrom,
      BucketState.init, BucketState.acquire]
  · norm_num [runAcquires, BucketState.init, BucketState.acquire]
  · norm_num [runAcquires, BucketState.init, BucketState.acquire,
      List.filter]

/-- Claim C4 (amended): each `acquire()` on a bucket with capacity
C ≥ 1 follows the per-call token-bucket rule — refill
`T = min(C, T + elapsed*(C/60))`; when `T < 1` suspend for
`(1-T)*60/C` seconds, completing then with `T` set to 0, else consume one
token and complete immediately — and preserves `0 ≤ T ≤ C`. The
rolling-window bound of the original claim does NOT hold: `last_update`
is not advanced past the suspension, so the suspension interval is
re-credited on the next call, and more than C acquisitions can complete
within a 60-second window (two at the very same instant even for C = 1,
see the counterexample). -/
theorem c4_rate_limiter_amended (s : BucketState) (now : ℚ)
    (hcap : 1 ≤ s.capacity) (htok0 : 0 ≤ s.tokens)
    (htokC : s.tokens ≤ s.capacity) (hlu : s.last_update ≤ now) :
    0 ≤ (s.acquire now).2.tokens ∧
    (s.acquire now).2.tokens ≤ (s.acquire now).2.capacity ∧
    (s.acquire now).2.capacity = s.capacity ∧
    (s.acquire now).2.last_update = now ∧
    now ≤ (s.acquire now).1 ∧
    (min s.capacity (s.tokens + (now - s.last_update) * (s.capacity / 60)) < 1 →
      (s.acquire now).1 = now +
        (1 - min s.capacity
          (s.tokens + (now - s.last_update) * (s.capacity / 60))) * 60 /
          s.capacity ∧
      (s.acquire now).2.tokens = 0) ∧
    (1 ≤ min s.capacity (s.tokens + (now - s.last_update) * (s.capacity / 60)) →
      (s.acquire now).1 = now ∧
      (s.acquire now).2.tokens =
        min s.capacity
          (s.tokens + (now - s.last_update) * (s.capacity / 60)) - 1) := by
  have hcappos : (0 : ℚ) < s.capacity := by linarith
  simp only [BucketState.acquire]
  split_ifs with h
  · refine ⟨le_refl 0, by linarith, rfl, rfl, ?_,
      fun _ => ⟨rfl, rfl⟩, fun h1 => absurd h (not_lt.mpr h1)⟩
    have hw : 0 ≤ (1 - min s.capacity
        (s.tokens + (now - s.last_update) * (s.capacity / 60))) * 60 /
        s.capacity :=
      div_nonneg (mul_nonneg (by linarith) (by norm_num))
        (le_of_lt hcappos)
    linarith
  · push_neg at h
    have hmin := min_le_left s.capacity
      (s.tokens + (now - s.last_update) * (s.capacity / 60))
    exact ⟨by linarith, by linarith, rfl, rfl, le_refl now,
      fun hlt => absurd hlt (not_lt.mpr h), fun _ => ⟨rfl, rfl⟩⟩

/-- Witness for the amended C4 theorem: a fresh bucket of capacity 10 at
time 0 serves an immediate `acquire()` at time 0, leaving 9 tokens. -/
theorem c4_rate_limiter_amended_witness :
    ((BucketState.init 10 0).acquire 0).1 = 0 ∧
    ((BucketState.init 10 0).acquire 0).2.tokens = 9 := by
  have h := c4_rate_limiter_amended (BucketState.init 10 0) 0
    (by norm_num [BucketState.init]) (by norm_num [BucketState.init])
    (by norm_num [BucketState.init]) (by norm_num [BucketState.init])
  have h2 := h.2.2.2.2.2.2 (by norm_num [BucketState.init])
  refine ⟨h2.1, ?_⟩
  rw [h2.2]
  norm_num [BucketState.init]

/-- Splitting never returns an empty list of pieces. -/
theorem pySplit_ne_nil (sep : Char) (l : List Char) : pySplit sep l ≠ [] := by
  cases l with
  | nil => simp [pySplit]
  | cons c cs =>
    simp only [pySplit]
    split_ifs
    · simp
    · cases hp : pySplit sep cs <;> simp

/-- Python's `str.split(sep)` returns one more piece than there are
separator occurrences. -/
theorem pySplit_length (sep : Char) (l : List Char) :
    (pySplit sep l).length = l.count sep + 1 := by
  induction l with
  | nil => simp [pySplit]
  | cons c cs ih =>
    by_cases h : c = sep
    · subst h
      simp [pySplit, ih]
    · cases hp : pySplit sep cs with
      | nil => exact absurd hp (pySplit_ne_nil sep cs)
      | cons p ps =>
        rw [hp] at ih
        simp only [pySplit, if_neg h, hp, List.length_cons]
        rw [List.count_cons_of_ne (by exact fun hh => h hh.symm)]
        simpa using ih

/-- Any error escaping `get_contract_address` is `ResolutionFailed` for
the normalized symbol and chain: the resolver constructs no other error,
so neither provider-level errors nor pair-format errors can leave it. -/
theorem get_contract_address_error_eq (env : ResolveEnv)
    (store : FailedStore) (sym chain : String) (fr : Bool)
    (e : ResolverError)
    (h : (get_contract_address env store sym chain fr).1 = .error e) :
    e = .resolutionFailed (pyUpper sym) (pyLower chain) := by
  unfold get_contract_address at h
  by_cases hn : List.lookup (pyLower chain) NATIVE_TOKENS = some (pyUpper sym)
  · rw [if_pos hn] at h
    simp at h
  · rw [if_neg hn] at h
    split at h
    · simp at h
    · split at h
      · simp at h
      · have h' : ResolverError.resolutionFailed (pyUpper sym) (pyLower chain) = e := by
          simpa using h
        exact h'.symm

/-- Counterexample to claim C8 as stated. The claim says the pair string
fails with `InvalidPairFormat` exactly when it does not contain exactly
one '/' producing two NON-EMPTY parts. The string "USDT/" has one '/'
but an empty quote part, so the claim predicts `InvalidPairFormat`; the
code only checks `len(parts) == 2`, accepts the empty part, and resolves
both sides successfully. -/
theorem c8_counterexample :
    pySplit '/' "USDT/".toList = [['U', 'S', 'D', 'T'], []] ∧
    (∃ r, (get_pair_contracts c8_env emptyFailedStore "USDT/"
      "ethereum").1 = .ok r) := by
  exact ⟨rfl, _, rfl⟩

/-- Claim C8 (amended): `get_pair_contracts` fails with
`InvalidPairFormat` exactly when the pair string does not split on '/'
into exactly two parts — equivalently, when it does not contain exactly
one '/' character; the two parts are not checked for non-emptiness. In
particular "USDTETH" fails with `InvalidPairFormat`; a well-formed pair
either resolves to `{pair, base_token, quote_token, blockchain}` or
fails with the resolution error of one of its legs, never with
`InvalidPairFormat`. -/
theorem c8_pair_format_amended (env : ResolveEnv) (store : FailedStore)
    (pair blockchain : String) :
    ((get_pair_contracts env store pair blockchain).1 =
        .error (.invalidPairFormat pair) ↔
      pair.toList.count '/' ≠ 1) ∧
    (get_pair_contracts env store "USDTETH" blockchain).1 =
      .error (.invalidPairFormat "USDTETH") := by
  constructor
  · constructor
    · intro h hcount
      have hlen : (pySplit '/' pair.toList).length = 2 := by
        rw [pySplit_length, hcount]
      obtain ⟨p0, p1, hp⟩ := List.length_eq_two.mp hlen
      unfold get_pair_contracts at h
      rw [hp] at h
      dsimp only at h
      rcases h1 : get_contract_address env store (pyUpper (String.mk p0))
          blockchain false with ⟨r1, store1⟩
      rw [h1] at h
      cases r1 with
      | ok base_token =>
        dsimp only at h
        rcases h2 : get_contract_address env store1
            (pyUpper (String.mk p1)) blockchain false with ⟨r2, store2⟩
        rw [h2] at h
        cases r2 with
        | ok quote_token => simp at h
        | error e2 =>
          have he2 := get_contract_address_error_eq env store1
            (pyUpper (String.mk p1)) blockchain false e2
            (by rw [h2])
          dsimp only at h
          rw [he2] at h
          simp at h
      | error e1 =>
        have he1 := get_contract_address_error_eq env store
          (pyUpper (String.mk p0)) blockchain false e1 (by rw [h1])
        dsimp only at h
        rw [he1] at h
        simp at h
    · intro hcount
      have hlen : (pySplit '/' pair.toList).length ≠ 2 := by
        rw [pySplit_length]
        omega
      unfold get_pair_contracts
      rcases hp : pySplit '/' pair.toList with _ | ⟨p0, _ | ⟨p1, _ | ⟨p2, ps⟩⟩⟩
      · rfl
      · rfl
      · exact absurd (by rw [hp]; rfl) hlen
      · rfl
  · rfl

/-- Witness for the amended C8 theorem: "USDT/ETH" contains exactly one
'/', so `get_pair_contracts` does not raise `InvalidPairFormat` on it. -/
theorem c8_pair_format_amended_witness :
    (get_pair_contracts c8_env emptyFailedStore "USDT/ETH" "ethereum").1 ≠
      .error (.invalidPairFormat "USDT/ETH") := by
  intro hc
  exact (c8_pair_format_amended c8_env emptyFailedStore "USDT/ETH"
    "ethereum").1.mp hc (by decide)

/-- Counterexample to claim C1 as stated. CoinGecko (the earlier
provider) fails by not-found and 1inch (the later provider) succeeds:
the fallback chain does return the 1inch record with `source = "1inch"`,
but the call log holds only the one successful 1inch row — no call-log
record exists for the failed CoinGecko attempt, because a not-found miss
skips `log_api_call` (only the exception path logs a failure row). -/
theorem c1_counterexample :
    CoinGeckoOutcome.isFailure c1_env.coingecko = true ∧
    ((fetch_from_apis c1_env "USDT" "ethereum").result.map
      (fun r => r.source)) = some "1inch" ∧
    (fetch_from_apis c1_env "USDT" "ethereum").log.all
      (fun e => e.api_name != "coingecko") = true ∧
    (fetch_from_apis c1_env "USDT" "ethereum").log.length = 1 :=
  ⟨rfl, rfl, rfl, rfl⟩

/-- Claim C1 (amended): in the fixed priority chain CoinGecko → 1inch →
DexScreener, whenever every provider before B fails (by exception or
not-found) and B succeeds, `_fetch_from_apis` returns B's normalized
record immediately — its `source` field equals B and no provider after
B is attempted — and a call-log row exists for the successful attempt;
for each earlier failed attempt a call-log row exists exactly when that
failure was an exception (a not-found miss is not logged), and every
call-log row of a failed provider is a failure row. The two possible
later providers B are covered in turn: B = 1inch (CoinGecko failed) and
B = DexScreener (CoinGecko and 1inch both failed, DexScreener available
and returning a token of the requested chain). -/
theorem c1_fallback_amended :
    (∀ (env : FetchEnv) (t : OneInchToken) (sym chain : String),
      env.coingecko.isFailure = true →
      env.oneinch = .found t →
      (fetch_from_apis env sym chain).result = some
        { symbol := t.symbol
          contract := some t.contract_address
          blockchain := chain
          decimals := t.decimals
          name := t.name
          verified := false
          source := "1inch" } ∧
      (fetch_from_apis env sym chain).attempted = ["coingecko", "1inch"] ∧
      ({ api_name := "1inch"
         endpoint := "/token/v1.2/" ++ chain ++ "/search"
         success := true
         status_code := some 200
         error_message := none } : ApiCallLogEntry) ∈
        (fetch_from_apis env sym chain).log ∧
      ((∃ m, env.coingecko = .err m) ↔
        ∃ e ∈ (fetch_from_apis env sym chain).log,
          e.api_name = "coingecko") ∧
      (∀ e ∈ (fetch_from_apis env sym chain).log,
        e.api_name = "coingecko" → e.success = false)) ∧
    (∀ (env : FetchEnv) (tokens : List DexToken) (tok : DexToken)
        (sym chain : String),
      env.coingecko.isFailure = true →
      env.oneinch.isFailure = true →
      env.dexscreener_available = true →
      env.dexscreener = .found tokens →
      tokens.find? (fun t => pyLower t.chain_id == pyLower chain) =
        some tok →
      (fetch_from_apis env sym chain).result = some
        { symbol := tok.symbol
          contract := some tok.address
          blockchain := chain
          decimals := 18
          name := tok.name
          verified := false
          source := "dexscreener" } ∧
      (fetch_from_apis env sym chain).attempted =
        ["coingecko", "1inch", "dexscreener"] ∧
      ({ api_name := "dexscreener"
         endpoint := "/search?q=" ++ sym
         success := true
         status_code := some 200
         error_message := none } : ApiCallLogEntry) ∈
        (fetch_from_apis env sym chain).log ∧
      ((∃ m, env.coingecko = .err m) ↔
        ∃ e ∈ (fetch_from_apis env sym chain).log,
          e.api_name = "coingecko") ∧
      ((∃ m, env.oneinch = .err m) ↔
        ∃ e ∈ (fetch_from_apis env sym chain).log,
          e.api_name = "1inch") ∧
      (∀ e ∈ (fetch_from_apis env sym chain).log,
        e.api_name = "coingecko" ∨ e.api_name = "1inch" →
          e.success = false)) := by
  constructor
  · intro env t sym chain hA hB
    cases hcg : env.coingecko with
    | found coin_id d =>
      rw [hcg] at hA
      simp [CoinGeckoOutcome.isFailure] at hA
    | noCoin =>
      simp only [fetch_from_apis, hcg, fetch_from_apis.fetchOneInch, hB]
      refine ⟨by trivial, by trivial, by simp, ?_, ?_⟩
      · constructor
        · rintro ⟨m, hm⟩
          cases hm
        · rintro ⟨e, he, hname⟩
          simp at he
          rw [he] at hname
          simp at hname
      · intro e he hname
        simp at he
        rw [he] at hname
        simp at hname
    | noContract coin_id =>
      simp only [fetch_from_apis, hcg, fetch_from_apis.fetchOneInch, hB]
      refine ⟨by trivial, by trivial, by simp, ?_, ?_⟩
      · constructor
        · rintro ⟨m, hm⟩
          cases hm
        · rintro ⟨e, he, hname⟩
          simp at he
          rw [he] at hname
          simp at hname
      · intro e he hname
        simp at he
        rw [he] at hname
        simp at hname
    | err m =>
      simp only [fetch_from_apis, hcg, fetch_from_apis.fetchOneInch, hB]
      refine ⟨by trivial, by trivial, by simp, ?_, ?_⟩
      · constructor
        · rintro ⟨m', hm⟩
          exact ⟨{ api_name := "coingecko"
                   endpoint := "search/" ++ sym
                   success := false
                   status_code := none
                   error_message := some m }, by simp, rfl⟩
        · intro _
          exact ⟨m, rfl⟩
      · intro e he hname
        simp at he
        rcases he with he | he
        · rw [he]
        · rw [he] at hname
          simp at hname
  · intro env tokens tok sym chain h1 h2 hav hd hfind
    cases hcg : env.coingecko with
    | found coin_id d =>
      rw [hcg] at h1
      simp [CoinGeckoOutcome.isFailure] at h1
    | noCoin =>
      cases ho : env.oneinch with
      | found t =>
        rw [ho] at h2
        simp [OneInchOutcome.isFailure] at h2
      | empty =>
        simp only [fetch_from_apis, hcg, fetch_from_apis.fetchOneInch,
          ho, fetch_from_apis.fetchDex]
        rw [if_pos hav]
        simp only [hd, hfind]
        simp
      | err m =>
        simp only [fetch_from_apis, hcg, fetch_from_apis.fetchOneInch,
          ho, fetch_from_apis.fetchDex]
        rw [if_pos hav]
        simp only [hd, hfind]
        simp
    | noContract coin_id =>
      cases ho : env.oneinch with
      | found t =>
        rw [ho] at h2
        simp [OneInchOutcome.isFailure] at h2
      | empty =>
        simp only [fetch_from_apis, hcg, fetch_from_apis.fetchOneInch,
          ho, fetch_from_apis.fetchDex]
        rw [if_pos hav]
        simp only [hd, hfind]
        simp
      | err m =>
        simp only [fetch_from_apis, hcg, fetch_from_apis.fetchOneInch,
          ho, fetch_from_apis.fetchDex]
        rw [if_pos hav]
        simp only [hd, hfind]
        simp
    | err m =>
      cases ho : env.oneinch with
      | found t =>
        rw [ho] at h2
        simp [OneInchOutcome.isFailure] at h2
      | empty =>
        simp only [fetch_from_apis, hcg, fetch_from_apis.fetchOneInch,
          ho, fetch_from_apis.fetchDex]
        rw [if_pos hav]
        simp only [hd, hfind]
        simp
      | err m2 =>
        simp only [fetch_from_apis, hcg, fetch_from_apis.fetchOneInch,
          ho, fetch_from_apis.fetchDex]
        rw [if_pos hav]
        simp only [hd, hfind]
        simp

/-- Witness for the amended C1 theorem, one instance per later provider
B: CoinGecko raises and 1inch finds a token, so only CoinGecko and
1inch are attempted; CoinGecko and 1inch both miss by not-found and
DexScreener finds an ethereum token, so all three are attempted. -/
theorem c1_fallback_amended_witness :
    (fetch_from_apis
      { coingecko := .err "boom"
        oneinch := .found
          { symbol := "AAA", contract_address := "0x1", decimals := 18,
            name := "aToken" }
        dexscreener := .found []
        dexscreener_available := true } "AAA" "bsc").attempted =
      ["coingecko", "1inch"] ∧
    (fetch_from_apis
      { coingecko := .noCoin
        oneinch := .empty
        dexscreener := .found
          [{ chain_id := "ethereum", address := "0x2", symbol := "BBB",
             name := "bToken" }]
        dexscreener_available := true } "BBB" "ethereum").attempted =
      ["coingecko", "1inch", "dexscreener"] :=
  ⟨(c1_fallback_amended.1
      { coingecko := .err "boom"
        oneinch := .found
          { symbol := "AAA", contract_address := "0x1", decimals := 18,
            name := "aToken" }
        dexscreener := .found []
        dexscreener_available := true }
      { symbol := "AAA", contract_address := "0x1", decimals := 18,
        name := "aToken" } "AAA" "bsc" rfl rfl).2.1,
   (c1_fallback_amended.2
      { coingecko := .noCoin
        oneinch := .empty
        dexscreener := .found
          [{ chain_id := "ethereum", address := "0x2", symbol := "BBB",
             name := "bToken" }]
        dexscreener_available := true }
      [{ chain_id := "ethereum", address := "0x2", symbol := "BBB",
         name := "bToken" }]
      { chain_id := "ethereum", address := "0x2", symbol := "BBB",
        name := "bToken" } "BBB" "ethereum" rfl rfl rfl rfl
      (by rfl)).2.1⟩

/-- Decoding `Char.ofNat` of a valid code point gives back that code
point. -/
theorem char_toNat_ofNat (n : Nat) (h : n.isValidChar) :
    (Char.ofNat n).toNat = n := by
  simp [Char.ofNat, h]
  rfl

/-- Python `str.upper` is idempotent on characters. -/
theorem pyCharUpper_idem (c : Char) :
    pyCharUpper (pyCharUpper c) = pyCharUpper c := by
  by_cases h : 'a' ≤ c ∧ c ≤ 'z'
  · have ha : 97 ≤ c.toNat := h.1
    have hb : c.toNat ≤ 122 := h.2
    have hu : (Char.ofNat (c.toNat - 32)).toNat = c.toNat - 32 :=
      char_toNat_ofNat _ (Or.inl (by omega))
    have hcu : pyCharUpper c = Char.ofNat (c.toNat - 32) := by
      rw [pyCharUpper, if_pos h]
    rw [hcu, pyCharUpper, if_neg ?_]
    intro hcon
    have h97 : (97 : Nat) ≤ (Char.ofNat (c.toNat - 32)).toNat := hcon.1
    rw [hu] at h97
    omega
  · have hcu : pyCharUpper c = c := by rw [pyCharUpper, if_neg h]
    rw [hcu, pyCharUpper, if_neg h]

/-- Python `str.lower` is idempotent on characters. -/
theorem pyCharLower_idem (c : Char) :
    pyCharLower (pyCharLower c) = pyCharLower c := by
  by_cases h : 'A' ≤ c ∧ c ≤ 'Z'
  · have ha : 65 ≤ c.toNat := h.1
    have hb : c.toNat ≤ 90 := h.2
    have hu : (Char.ofNat (c.toNat + 32)).toNat = c.toNat + 32 :=
      char_toNat_ofNat _ (Or.inl (by omega))
    have hcu : pyCharLower c = Char.ofNat (c.toNat + 32) := by
      rw [pyCharLower, if_pos h]
    rw [hcu, pyCharLower, if_neg ?_]
    intro hcon
    have h90 : (Char.ofNat (c.toNat + 32)).toNat ≤ 90 := hcon.2
    rw [hu] at h90
    omega
  · have hcu : pyCharLower c = c := by rw [pyCharLower, if_neg h]
    rw [hcu, pyCharLower, if_neg h]

/-- Python `str.upper` is idempotent on strings. -/
theorem pyUpper_idem (s : String) : pyUpper (pyUpper s) = pyUpper s := by
  apply congrArg String.mk
  show (s.data.map pyCharUpper).map pyCharUpper = s.data.map pyCharUpper
  induction s.data with
  | nil => rfl
  | cons c cs ih => simp_all [pyCharUpper_idem]

/-- Python `str.lower` is idempotent on strings. -/
theorem pyLower_idem (s : String) : pyLower (pyLower s) = pyLower s := by
  apply congrArg String.mk
  show (s.data.map pyCharLower).map pyCharLower = s.data.map pyCharLower
  induction s.data with
  | nil => rfl
  | cons c cs ih => simp_all [pyCharLower_idem]

/-- When every provider branch fails or finds nothing for the requested
chain, `_fetch_from_apis` returns `None`. -/
theorem fetch_from_apis_none (env : FetchEnv) (sym chain : String)
    (h1 : env.coingecko.isFailure = true)
    (h2 : env.oneinch.isFailure = true)
    (h3 : env.dexscreener_available = true →
      env.dexscreener.isFailureFor chain = true) :
    (fetch_from_apis env sym chain).result = none := by
  have hdex : ∀ logSoFar,
      (fetch_from_apis.fetchDex env sym chain logSoFar).result = none := by
    intro logSoFar
    unfold fetch_from_apis.fetchDex
    cases hav : env.dexscreener_available with
    | false => simp
    | true =>
      cases hd : env.dexscreener with
      | err m => simp
      | found tokens =>
        have hfind := h3 hav
        rw [hd] at hfind
        simp only [DexOutcome.isFailureFor, Option.isNone_iff_eq_none]
          at hfind
        simp [hfind]
  have hone : ∀ logSoFar,
      (fetch_from_apis.fetchOneInch env sym chain logSoFar).result =
        none := by
    intro logSoFar
    unfold fetch_from_apis.fetchOneInch
    cases ho : env.oneinch with
    | found t =>
      rw [ho] at h2
      simp [OneInchOutcome.isFailure] at h2
    | empty => exact hdex logSoFar
    | err m => exact hdex _
  unfold fetch_from_apis
  cases hcg : env.coingecko with
  | found coin_id d =>
    rw [hcg] at h1
    simp [CoinGeckoOutcome.isFailure] at h1
  | noCoin => exact hone []
  | noContract coin_id => exact hone []
  | err m => exact hone _

/-- Claim C2: when the requested symbol is not the chain's native token,
the cache misses, and every provider fails or returns not-found,
`get_contract_address` records a `FailedLookup` for the normalized
(symbol, chain) — incrementing `retry_count` when a row already exists,
else inserting with `retry_count = 1` — and fails with
`ResolutionFailed`; and no provider-level exception ever escapes the
resolver raw (for any environment, any input). -/
theorem c2_exhaustion (env : ResolveEnv) (store : FailedStore)
    (sym chain : String) (force_refresh : Bool)
    (hnative : List.lookup (pyLower chain) NATIVE_TOKENS ≠
      some (pyUpper sym))
    (hcache : env.cached = none)
    (h1 : env.fetch.coingecko.isFailure = true)
    (h2 : env.fetch.oneinch.isFailure = true)
    (h3 : env.fetch.dexscreener_available = true →
      env.fetch.dexscreener.isFailureFor (pyLower chain) = true) :
    (get_contract_address env store sym chain force_refresh).1 =
      .error (.resolutionFailed (pyUpper sym) (pyLower chain)) ∧
    (get_contract_address env store sym chain force_refresh).2
        (pyUpper sym, pyLower chain) =
      some { error_message := "All APIs failed"
             retry_count :=
               match store (pyUpper sym, pyLower chain) with
               | some prev => prev.retry_count + 1
               | none => 1 } ∧
    (∀ (env' : ResolveEnv) (store' : FailedStore) (s c : String)
        (f : Bool) (m : String),
      (get_contract_address env' store' s c f).1 ≠
        .error (.providerError m)) := by
  have hfetch := fetch_from_apis_none env.fetch (pyUpper sym)
    (pyLower chain) h1 h2 h3
  have hmain : get_contract_address env store sym chain force_refresh =
      (.error (.resolutionFailed (pyUpper sym) (pyLower chain)),
       log_failed_lookup store (pyUpper sym) (pyLower chain)
         "All APIs failed") := by
    unfold get_contract_address
    rw [if_neg hnative]
    have hc : (if force_refresh then none else env.cached) =
        (none : Option CachedContract) := by
      cases force_refresh <;> simp [hcache]
    rw [hc, hfetch]
  refine ⟨by rw [hmain], ?_, ?_⟩
  · rw [hmain]
    simp only [log_failed_lookup]
    rw [pyUpper_idem, pyLower_idem, if_pos rfl]
    cases hs : store (pyUpper sym, pyLower chain) <;> simp [hs]
  · intro env' store' s c f m hcontra
    have := get_contract_address_error_eq env' store' s c f _ hcontra
    cases this

/-- Witness for C2: full exhaustion on "FOO"/"ethereum" with an empty
failed-lookup store raises `ResolutionFailed` and inserts a failed
lookup with `retry_count = 1`. -/
theorem c2_exhaustion_witness :
    (get_contract_address c2_env emptyFailedStore "FOO" "ethereum"
        false).1 =
      .error (.resolutionFailed "FOO" "ethereum") ∧
    (get_contract_address c2_env emptyFailedStore "FOO" "ethereum"
        false).2 ("FOO", "ethereum") =
      some { error_message := "All APIs failed", retry_count := 1 } := by
  have h := c2_exhaustion c2_env emptyFailedStore "FOO" "ethereum" false
    (by decide) rfl rfl rfl (fun _ => rfl)
  exact ⟨h.1, h.2.1⟩

end TgArb
